import Mathlib

/-!
# Verification of the customer-support-agent retrieval adapter

Shallow embedding of `retrieveContext` from
`customer-support-agent/app/lib/utils.ts` and of the `GET` handler from
`customer-support-agent/app/api/knowledgebases/route.ts`, together with
theorems settling the specified properties.

JavaScript/TypeScript semantics are modelled explicitly:
* optional / possibly-`undefined` fields become `Option`,
* string truthiness (`x || d`) is falsy exactly on the empty string,
* the remote client's `send` is a function from the command input to
  `Except String response` (`Except.error` models a thrown error caught
  by the surrounding `try`/`catch`),
* the embedding additionally returns the list of command inputs passed to
  `send`, so that "no remote call was made" is observable,
* relevance scores are carried through unchanged by the code, so they are
  modelled as rationals (`ℚ`).
All functions are total, modelling the fact that the adapter body cannot
throw outside of the remote call.
-/

namespace CustomerSupportAgent

/-- The `content` field of a Bedrock retrieval result: `{ text?: string }`. -/
structure Content where
  text : Option String
deriving Repr, DecidableEq

/-- The `s3Location` field: `{ uri?: string }`. -/
structure S3Location where
  uri : Option String
deriving Repr, DecidableEq

/-- The `location` field: `{ s3Location?: ... }`. -/
structure Location where
  s3Location : Option S3Location
deriving Repr, DecidableEq

/-- One element of `response.retrievalResults`. `metadataChunkId` models
`result.metadata?.["x-amz-bedrock-kb-chunk-id"]`. -/
structure RetrievalResult where
  content : Option Content
  location : Option Location
  metadataChunkId : Option String
  score : Option ℚ
deriving Repr, DecidableEq

/-- The response of the Bedrock `RetrieveCommand`: `retrievalResults` may be
absent. -/
structure RetrieveResponse where
  retrievalResults : Option (List RetrievalResult)
deriving Repr, DecidableEq

/-- The `RetrieveCommandInput` built by `retrieveContext` (the nested
`retrievalQuery.text` and
`retrievalConfiguration.vectorSearchConfiguration.numberOfResults` are
flattened). -/
structure RetrieveCommandInput where
  knowledgeBaseId : String
  retrievalQueryText : String
  numberOfResults : Nat
deriving Repr, DecidableEq

/-- The `RAGSource` interface of `utils.ts`. -/
structure RAGSource where
  id : String
  fileName : String
  snippet : String
  score : ℚ
deriving Repr, DecidableEq

/-- The value returned by `retrieveContext`:
`{ context, isRagWorking, ragSources }`. -/
structure RetrieveOutcome where
  context : String
  isRagWorking : Bool
  ragSources : List RAGSource
deriving Repr, DecidableEq

/-- JavaScript `x || d` for an optional string `x`: the fallback `d` is used
when `x` is `undefined` or the (falsy) empty string. -/
def jsOrStr : Option String → String → String
  | some s, d => if s = "" then d else s
  | none, d => d

/-- JavaScript `x || d` for an optional number `x`: the fallback `d` is used
when `x` is `undefined` or the (falsy) number `0`. -/
def jsOrRat : Option ℚ → ℚ → ℚ
  | some q, d => if q = 0 then d else q
  | none, d => d

/-- The filter predicate `res.content && res.content.text`: the `content`
object must be present and its `text` field must be a truthy (non-empty)
string. -/
def hasText (r : RetrievalResult) : Bool :=
  match r.content with
  | some c =>
    match c.text with
    | some t => t ≠ ""
    | none => false
  | none => false

/-- `result?.location?.s3Location?.uri || ""`. -/
def uriOf (r : RetrievalResult) : String :=
  jsOrStr ((r.location.bind Location.s3Location).bind S3Location.uri) ""

/-- `result.content?.text || ""` (also the value of `res.content.text` for a
match that passed the `hasText` filter). -/
def textOf (r : RetrievalResult) : String :=
  jsOrStr (r.content.bind Content.text) ""

/-- JS `s.split(sep)` for a single-character separator, on the character
list: empty segments are kept and the empty string yields `[[]]`. -/
def splitChar (sep : Char) : List Char → List (List Char)
  | [] => [[]]
  | c :: rest =>
    if c = sep then [] :: splitChar sep rest
    else
      match splitChar sep rest with
      | [] => [[c]]
      | h :: t => (c :: h) :: t

/-- JS `uri.split("/").pop()`: the last element of the split (for the empty
string, `"".split("/")` is `[""]`, whose last element is `""`). -/
def lastSeg (uri : String) : String :=
  String.mk ((splitChar '/' uri.data).getLastD [])

/-- JS `fileName.replace(/_/g, " ")`: a global single-character replacement is
a character map. -/
def replaceUnderscores (s : String) : String :=
  String.mk (s.data.map fun c => if c = '_' then ' ' else c)

/-- Whether `pat` occurs at the head of the second list. -/
def matchesAt : List Char → List Char → Bool
  | [], _ => true
  | _ :: _, [] => false
  | p :: ps, c :: cs => p = c && matchesAt ps cs

/-- Replace the first occurrence of `pat` in the subject list by `repl`
(JS `String.prototype.replace` with a string pattern). -/
def listReplaceFirst : List Char → List Char → List Char → List Char
  | [], _, _ => []
  | c :: rest, pat, repl =>
    if matchesAt pat (c :: rest) then repl ++ (c :: rest).drop pat.length
    else c :: listReplaceFirst rest pat repl

/-- JS `s.replace(pat, repl)` with a string `pat`: only the first occurrence
is replaced. -/
def replaceFirst (s pat repl : String) : String :=
  String.mk (listReplaceFirst s.data pat.data repl.data)

/-- The body of the `.map((result, index) => ...)` call building one
`RAGSource`: derive the file name from the last path segment of the S3 uri
(falling back to `Source-<index>.txt`), replace underscores by spaces and
drop the first `".txt"`, carry through the chunk id (falling back to
`chunk-<index>`), the snippet text and the score (falling back to `0`). -/
def mkRagSource (index : Nat) (result : RetrievalResult) : RAGSource :=
  let uri := uriOf result
  let fileName := jsOrStr (some (lastSeg uri)) ("Source-" ++ Nat.repr index ++ ".txt")
  { id := jsOrStr result.metadataChunkId ("chunk-" ++ Nat.repr index)
    fileName := replaceFirst (replaceUnderscores fileName) ".txt" ""
    snippet := textOf result
    score := jsOrRat result.score 0 }

/-- Shallow embedding of `retrieveContext` from `utils.ts`.  The remote
client is abstracted as `send`; the second component of the result is the
list of command inputs passed to `send` (so an empty list means no remote
call was made).  A thrown error from `send` is `Except.error` and lands in
the `catch` branch. -/
def retrieveContext (query knowledgeBaseId : String) (n : Nat)
    (send : RetrieveCommandInput → Except String RetrieveResponse) :
    RetrieveOutcome × List RetrieveCommandInput :=
  if knowledgeBaseId = "" then
    ({ context := "", isRagWorking := false, ragSources := [] }, [])
  else
    let input : RetrieveCommandInput :=
      { knowledgeBaseId := knowledgeBaseId
        retrievalQueryText := query
        numberOfResults := n }
    match send input with
    | Except.error _ =>
      ({ context := "", isRagWorking := false, ragSources := [] }, [input])
    | Except.ok response =>
      let rawResults := response.retrievalResults.getD []
      if rawResults.length = 0 then
        ({ context := "", isRagWorking := true, ragSources := [] }, [input])
      else
        let filtered := rawResults.filter hasText
        let ragSources := filtered.enum.map fun p => mkRagSource p.1 p.2
        let context := String.intercalate "\n\n" (filtered.map textOf)
        ({ context := context, isRagWorking := true, ragSources := ragSources },
          [input])

/-- One element of `response.knowledgeBaseSummaries` in the listing route
(`updatedAt` is modelled by its ISO string, the only use the code makes of
the date). -/
structure KnowledgeBaseSummary where
  knowledgeBaseId : Option String
  name : Option String
  description : Option String
  status : Option String
  updatedAt : Option String
deriving Repr, DecidableEq

/-- The plain record the route maps each summary to. -/
structure KnowledgeBaseRecord where
  id : Option String
  name : Option String
  description : Option String
  status : Option String
  updatedAt : Option String
deriving Repr, DecidableEq

/-- The response of `ListKnowledgeBasesCommand`. -/
structure ListKnowledgeBasesResponse where
  knowledgeBaseSummaries : Option (List KnowledgeBaseSummary)
deriving Repr, DecidableEq

/-- The JSON body of the route's response. -/
inductive GETBody where
  | errorBody (msg : String)
  | listBody (kbs : List KnowledgeBaseRecord)
deriving Repr, DecidableEq

/-- A `NextResponse`: HTTP status and JSON body. -/
structure HttpResponse where
  status : Nat
  body : GETBody
deriving Repr, DecidableEq

/-- Shallow embedding of the `GET` handler of
`app/api/knowledgebases/route.ts`.  `region` is
`searchParams.get('region')` (`none` models `null`); `send` abstracts
creating the client for a region and sending `ListKnowledgeBasesCommand`;
the Bool in the result records whether `send` was invoked. -/
def GET (region : Option String)
    (send : String → Except String ListKnowledgeBasesResponse) :
    HttpResponse × Bool :=
  match region with
  | none => ({ status := 400, body := GETBody.errorBody "Region is required" }, false)
  | some r =>
    if r = "" then
      ({ status := 400, body := GETBody.errorBody "Region is required" }, false)
    else
      match send r with
      | Except.error _ =>
        ({ status := 500, body := GETBody.errorBody "Failed to fetch knowledge bases" },
          true)
      | Except.ok response =>
        let kbs :=
          (response.knowledgeBaseSummaries.map fun l =>
            l.map fun kb =>
              ({ id := kb.knowledgeBaseId
                 name := kb.name
                 description := kb.description
                 status := kb.status
                 updatedAt := kb.updatedAt } : KnowledgeBaseRecord)).getD []
        ({ status := 200, body := GETBody.listBody kbs }, true)

/-- The command input `retrieveContext` builds for a query, knowledge base id
and result count. -/
def mkInput (query kbId : String) (n : Nat) : RetrieveCommandInput :=
  { knowledgeBaseId := kbId, retrievalQueryText := query, numberOfResults := n }

/-- A remote client that always succeeds with zero matches. -/
def sendAlwaysEmpty : RetrieveCommandInput → Except String RetrieveResponse :=
  fun _ => Except.ok { retrievalResults := some [] }

/-- A remote client that always throws. -/
def sendAlwaysFail : RetrieveCommandInput → Except String RetrieveResponse :=
  fun _ => Except.error "network error"

/-- A remote client that succeeds with the `retrievalResults` field absent. -/
def sendNullResults : RetrieveCommandInput → Except String RetrieveResponse :=
  fun _ => Except.ok { retrievalResults := none }

/-- A listing client that always succeeds with no summaries field. -/
def sendListOk : String → Except String ListKnowledgeBasesResponse :=
  fun _ => Except.ok { knowledgeBaseSummaries := none }

/-- A retrieval result with text, a locator and a chunk id. -/
def resultA : RetrievalResult :=
  { content := some { text := some "alpha" }
    location := some { s3Location := some { uri := some "s3://b/doc_a.txt" } }
    metadataChunkId := some "c-a"
    score := some 1 }

/-- A retrieval result with no content (and hence no text). -/
def resultNoText : RetrievalResult :=
  { content := none
    location := some { s3Location := some { uri := some "s3://b/doc_b.txt" } }
    metadataChunkId := some "c-b"
    score := some (1/2) }

/-- A retrieval result with text but no location. -/
def resultNoLoc : RetrievalResult :=
  { content := some { text := some "gamma" }
    location := none
    metadataChunkId := none
    score := none }

/-- A remote client returning one textual match. -/
def sendAllText : RetrieveCommandInput → Except String RetrieveResponse :=
  fun _ => Except.ok { retrievalResults := some [resultA] }

/-- A remote client returning textual and non-textual matches. -/
def sendMixed : RetrieveCommandInput → Except String RetrieveResponse :=
  fun _ =>
    Except.ok { retrievalResults := some [resultA, resultNoText, resultNoLoc] }

/-- The first match of the return-policy scenario. -/
def rPolicyReturns : RetrievalResult :=
  { content := some { text := some "Returns accepted within 30 days." }
    location := some
      { s3Location := some { uri := some "s3://bucket/policy_returns.txt" } }
    metadataChunkId := none
    score := some (9/10) }

/-- The second match of the return-policy scenario. -/
def rPolicyRefunds : RetrievalResult :=
  { content := some { text := some "Refunds issued to original payment method." }
    location := some
      { s3Location := some { uri := some "s3://bucket/policy_refunds.txt" } }
    metadataChunkId := none
    score := some (4/5) }

/-- The remote client of the return-policy scenario. -/
def sendReturnPolicy : RetrieveCommandInput → Except String RetrieveResponse :=
  fun _ => Except.ok { retrievalResults := some [rPolicyReturns, rPolicyRefunds] }

/-- Core characterisation of `retrieveContext` on a successful remote call
whose `retrievalResults` field is present: the matches lacking text are
filtered out, the context is the blank-line join of the remaining texts, and
the sources are the index-tagged images of the remaining matches. -/
theorem retrieveContext_ok_spec (query kbId : String) (n : Nat)
    (send : RetrieveCommandInput → Except String RetrieveResponse)
    (rs : List RetrievalResult) (hkb : kbId ≠ "")
    (hsend : send (mkInput query kbId n) = Except.ok { retrievalResults := some rs }) :
    retrieveContext query kbId n send =
      ({ context := String.intercalate "\n\n" ((rs.filter hasText).map textOf)
         isRagWorking := true
         ragSources := (rs.filter hasText).enum.map fun p => mkRagSource p.1 p.2 },
        [mkInput query kbId n]) := by
  unfold retrieveContext
  rw [if_neg hkb]
  simp only [mkInput] at hsend
  simp only [hsend]
  rcases rs with _ | ⟨r, rest⟩
  · simp [mkInput, String.intercalate]
  · by_cases hf : hasText r = true <;>
      simp [mkInput, hf]

/-- `retrieveContext_ok_spec` projected to the returned value. -/
theorem retrieveContext_ok_fst (query kbId : String) (n : Nat)
    (send : RetrieveCommandInput → Except String RetrieveResponse)
    (rs : List RetrievalResult) (hkb : kbId ≠ "")
    (hsend : send (mkInput query kbId n) = Except.ok { retrievalResults := some rs }) :
    (retrieveContext query kbId n send).1 =
      { context := String.intercalate "\n\n" ((rs.filter hasText).map textOf)
        isRagWorking := true
        ragSources := (rs.filter hasText).enum.map fun p => mkRagSource p.1 p.2 } := by
  rw [retrieveContext_ok_spec query kbId n send rs hkb hsend]

/-- A non-matching head character makes `matchesAt` fail. -/
theorem matchesAt_cons_ne (p : Char) (ps : List Char) (c : Char) (cs : List Char)
    (h : c ≠ p) : matchesAt (p :: ps) (c :: cs) = false := by
  simp [matchesAt]
  intro hh
  exact absurd hh.symm h

/-- `listReplaceFirst` skips over characters that cannot start the pattern. -/
theorem listReplaceFirst_append (l t repl : List Char) (p : Char) (ps : List Char)
    (hl : ∀ c ∈ l, c ≠ p) :
    listReplaceFirst (l ++ t) (p :: ps) repl = l ++ listReplaceFirst t (p :: ps) repl := by
  induction l with
  | nil => rfl
  | cons c cs ih =>
    rw [List.cons_append]
    simp only [listReplaceFirst]
    rw [matchesAt_cons_ne p ps c _ (hl c (List.mem_cons_self c cs))]
    simp only [Bool.false_eq_true, if_false, List.cons_append]
    rw [ih (fun c' h' => hl c' (List.mem_cons_of_mem c h'))]

/-- Replacing the pattern `".txt"` inside `".txt"` itself by nothing empties
it. -/
theorem listReplaceFirst_txt_self :
    listReplaceFirst ".txt".data ".txt".data [] = [] := by decide

/-- Dropping the first `".txt"` from `s ++ ".txt"` gives back `s` when `s`
contains no dot. -/
theorem replaceFirst_trailing_txt (s : String) (h : ∀ c ∈ s.data, c ≠ '.') :
    replaceFirst (s ++ ".txt") ".txt" "" = s := by
  unfold replaceFirst
  have hdata : (s ++ ".txt").data = s.data ++ ".txt".data := rfl
  rw [hdata]
  have hpat : ".txt".data = '.' :: ['t', 'x', 't'] := rfl
  rw [hpat, listReplaceFirst_append s.data _ _ '.' _ h,
    show listReplaceFirst ('.' :: ['t', 'x', 't']) ('.' :: ['t', 'x', 't']) [] = [] from
      listReplaceFirst_txt_self]
  rw [List.append_nil]

/-- The underscore-to-space map is the identity on underscore-free lists. -/
theorem map_underscore_id (l : List Char) (h : ∀ c ∈ l, c ≠ '_') :
    l.map (fun c => if c = '_' then ' ' else c) = l := by
  induction l with
  | nil => rfl
  | cons c cs ih =>
    rw [List.map_cons, if_neg (h c (List.mem_cons_self c cs)),
      ih (fun c' h' => h c' (List.mem_cons_of_mem c h'))]

/-- `replaceUnderscores` is the identity on underscore-free strings. -/
theorem replaceUnderscores_eq_self (s : String) (h : ∀ c ∈ s.data, c ≠ '_') :
    replaceUnderscores s = s := by
  unfold replaceUnderscores
  rw [map_underscore_id s.data h]

/-- `Nat.digitChar` never yields a dot or an underscore. -/
theorem digitChar_ok (d : Nat) : Nat.digitChar d ≠ '.' ∧ Nat.digitChar d ≠ '_' := by
  by_cases hlt : d < 16
  · interval_cases d <;> exact ⟨by decide, by decide⟩
  · have e0 : d ≠ 0 := by omega
    have e1 : d ≠ 1 := by omega
    have e2 : d ≠ 2 := by omega
    have e3 : d ≠ 3 := by omega
    have e4 : d ≠ 4 := by omega
    have e5 : d ≠ 5 := by omega
    have e6 : d ≠ 6 := by omega
    have e7 : d ≠ 7 := by omega
    have e8 : d ≠ 8 := by omega
    have e9 : d ≠ 9 := by omega
    have e10 : d ≠ 10 := by omega
    have e11 : d ≠ 11 := by omega
    have e12 : d ≠ 12 := by omega
    have e13 : d ≠ 13 := by omega
    have e14 : d ≠ 14 := by omega
    have e15 : d ≠ 15 := by omega
    have hstar : Nat.digitChar d = '*' := by
      simp [Nat.digitChar, e0, e1, e2, e3, e4, e5, e6, e7, e8, e9, e10, e11,
        e12, e13, e14, e15]
    rw [hstar]
    exact ⟨by decide, by decide⟩

/-- `Nat.toDigitsCore` never yields a dot or an underscore. -/
theorem toDigitsCore_ok (b : Nat) (fuel : Nat) :
    ∀ (m : Nat) (ds : List Char), (∀ c ∈ ds, c ≠ '.' ∧ c ≠ '_') →
      ∀ c ∈ Nat.toDigitsCore b fuel m ds, c ≠ '.' ∧ c ≠ '_' := by
  induction fuel with
  | zero =>
    intro m ds hds
    simpa [Nat.toDigitsCore] using hds
  | succ fuel ih =>
    intro m ds hds c hc
    simp only [Nat.toDigitsCore] at hc
    split at hc
    · rcases List.mem_cons.mp hc with h | h
      · subst h; exact digitChar_ok _
      · exact hds c h
    · refine ih _ _ ?_ c hc
      intro c' hc'
      rcases List.mem_cons.mp hc' with h | h
      · subst h; exact digitChar_ok _
      · exact hds c' h

/-- The decimal representation of a natural number contains neither a dot nor
an underscore. -/
theorem repr_ok (n : Nat) : ∀ c ∈ (Nat.repr n).data, c ≠ '.' ∧ c ≠ '_' := by
  intro c hc
  exact toDigitsCore_ok 10 (n + 1) n [] (by intro c' hc'; cases hc') c hc

/-- The display-name pipeline maps the placeholder file name
`Source-<i>.txt` to `Source-<i>`. -/
theorem placeholder_display (i : Nat) :
    replaceFirst (replaceUnderscores ("Source-" ++ Nat.repr i ++ ".txt")) ".txt" "" =
      "Source-" ++ Nat.repr i := by
  have hnous : ∀ c ∈ ("Source-" ++ Nat.repr i ++ ".txt").data, c ≠ '_' := by
    intro c hc
    have hd : ("Source-" ++ Nat.repr i ++ ".txt").data =
        "Source-".data ++ (Nat.repr i).data ++ ".txt".data := rfl
    rw [hd] at hc
    rcases List.mem_append.mp hc with hc | hc
    · rcases List.mem_append.mp hc with hc | hc
      · exact (by decide : ∀ c ∈ "Source-".data, c ≠ '_') c hc
      · exact (repr_ok i c hc).2
    · exact (by decide : ∀ c ∈ ".txt".data, c ≠ '_') c hc
  rw [replaceUnderscores_eq_self _ hnous]
  apply replaceFirst_trailing_txt
  intro c hc
  have hd : ("Source-" ++ Nat.repr i).data = "Source-".data ++ (Nat.repr i).data := rfl
  rw [hd] at hc
  rcases List.mem_append.mp hc with hc | hc
  · exact (by decide : ∀ c ∈ "Source-".data, c ≠ '.') c hc
  · exact (repr_ok i c hc).1

/-- A match whose locator yields no non-empty last path segment gets the
positional placeholder display name. -/
theorem mkRagSource_placeholder (i : Nat) (r : RetrievalResult)
    (hloc : lastSeg (uriOf r) = "") :
    (mkRagSource i r).fileName = "Source-" ++ Nat.repr i := by
  show replaceFirst
      (replaceUnderscores
        (jsOrStr (some (lastSeg (uriOf r))) ("Source-" ++ Nat.repr i ++ ".txt")))
      ".txt" "" = "Source-" ++ Nat.repr i
  rw [hloc]
  rw [show jsOrStr (some "") ("Source-" ++ Nat.repr i ++ ".txt") =
      "Source-" ++ Nat.repr i ++ ".txt" from rfl]
  exact placeholder_display i

/-- C1 (counterexample): with an empty `knowledgeBaseId` and a remote client
that never fails, `retrieveContext` terminates with `isRagWorking = false`
even though no remote call was made at all (the call list is empty), so no
communication/service failure occurred during a remote call — refuting the
claim that the flag is `false` only on such a failure. -/
theorem retrieveContext_false_without_failure :
    (retrieveContext "q" "" 3 sendAlwaysEmpty).1.isRagWorking = false ∧
      (retrieveContext "q" "" 3 sendAlwaysEmpty).2 = [] :=
  ⟨rfl, rfl⟩

/-- C1 (amended): for every invocation of `retrieveContext` with a non-empty
`knowledgeBaseId`, the returned `isRagWorking` is `false` only when the
remote call threw an error; any other terminating outcome (including zero
matching results) returns `isRagWorking = true`. -/
theorem isRagWorking_false_only_on_error (query kbId : String) (n : Nat)
    (send : RetrieveCommandInput → Except String RetrieveResponse)
    (hkb : kbId ≠ "")
    (hfalse : (retrieveContext query kbId n send).1.isRagWorking = false) :
    ∃ e, send (mkInput query kbId n) = Except.error e := by
  unfold retrieveContext at hfalse
  rw [if_neg hkb] at hfalse
  rcases h : send (mkInput query kbId n) with e | resp
  · exact ⟨e, rfl⟩
  · exfalso
    simp only [mkInput] at h
    simp only [h] at hfalse
    by_cases hz : (resp.retrievalResults.getD []).length = 0 <;>
      simp [hz] at hfalse

/-- Witness for C1's amended theorem at a concrete failing client. -/
theorem isRagWorking_false_only_on_error_witness :
    ("KB" ≠ "") ∧
      ((retrieveContext "q" "KB" 3 sendAlwaysFail).1.isRagWorking = false) ∧
      ∃ e, sendAlwaysFail (mkInput "q" "KB" 3) = Except.error e :=
  ⟨by decide, rfl,
    isRagWorking_false_only_on_error "q" "KB" 3 sendAlwaysFail (by decide) rfl⟩

/-- C2: with a non-empty `knowledgeBaseId` and a successful remote call
returning zero matches, the result is `isRagWorking = true` with empty
context and empty source list. -/
theorem retrieveContext_zero_matches (query kbId : String) (n : Nat)
    (send : RetrieveCommandInput → Except String RetrieveResponse)
    (hkb : kbId ≠ "")
    (hsend : send (mkInput query kbId n) =
      Except.ok { retrievalResults := some [] }) :
    (retrieveContext query kbId n send).1 =
      { context := "", isRagWorking := true, ragSources := [] } := by
  rw [retrieveContext_ok_spec query kbId n send [] hkb hsend]
  rfl

/-- Witness for C2 at a concrete client returning zero matches. -/
theorem retrieveContext_zero_matches_witness :
    ("KB" ≠ "") ∧
      (sendAlwaysEmpty (mkInput "q" "KB" 3) =
        Except.ok { retrievalResults := some [] }) ∧
      (retrieveContext "q" "KB" 3 sendAlwaysEmpty).1 =
        { context := "", isRagWorking := true, ragSources := [] } :=
  ⟨by decide, rfl,
    retrieveContext_zero_matches "q" "KB" 3 sendAlwaysEmpty (by decide) rfl⟩

/-- C4: with an empty (absent) `knowledgeBaseId`, `retrieveContext` returns
empty context, empty source list and `isRagWorking = false`, and invokes the
remote client's send operation on no input (the call list is empty). -/
theorem retrieveContext_empty_kb (query : String) (n : Nat)
    (send : RetrieveCommandInput → Except String RetrieveResponse) :
    retrieveContext query "" n send =
      ({ context := "", isRagWorking := false, ragSources := [] }, []) :=
  rfl

/-- C5: with a non-empty `knowledgeBaseId` and a remote call that throws any
error, the result is exactly empty context, empty source list and
`isRagWorking = false` — the error value does not appear in the output and
no partial results do either. -/
theorem retrieveContext_error (query kbId : String) (n : Nat)
    (send : RetrieveCommandInput → Except String RetrieveResponse)
    (e : String) (hkb : kbId ≠ "")
    (hsend : send (mkInput query kbId n) = Except.error e) :
    (retrieveContext query kbId n send).1 =
      { context := "", isRagWorking := false, ragSources := [] } := by
  unfold retrieveContext
  rw [if_neg hkb]
  simp only [mkInput] at hsend
  simp [hsend]

/-- Witness for C5 at a concrete throwing client. -/
theorem retrieveContext_error_witness :
    ("KB" ≠ "") ∧
      (sendAlwaysFail (mkInput "q" "KB" 3) = Except.error "network error") ∧
      (retrieveContext "q" "KB" 3 sendAlwaysFail).1 =
        { context := "", isRagWorking := false, ragSources := [] } :=
  ⟨by decide, rfl,
    retrieveContext_error "q" "KB" 3 sendAlwaysFail "network error" (by decide) rfl⟩

/-- C10: with a non-empty `knowledgeBaseId` and a successful remote call
whose `retrievalResults` field is absent, the result is treated as a
successful zero-match response: `isRagWorking = true`, empty context, empty
source list. -/
theorem retrieveContext_missing_results (query kbId : String) (n : Nat)
    (send : RetrieveCommandInput → Except String RetrieveResponse)
    (hkb : kbId ≠ "")
    (hsend : send (mkInput query kbId n) =
      Except.ok { retrievalResults := none }) :
    (retrieveContext query kbId n send).1 =
      { context := "", isRagWorking := true, ragSources := [] } := by
  unfold retrieveContext
  rw [if_neg hkb]
  simp only [mkInput] at hsend
  simp [hsend]

/-- Witness for C10 at a concrete client with an absent result list. -/
theorem retrieveContext_missing_results_witness :
    ("KB" ≠ "") ∧
      (sendNullResults (mkInput "q" "KB" 3) =
        Except.ok { retrievalResults := none }) ∧
      (retrieveContext "q" "KB" 3 sendNullResults).1 =
        { context := "", isRagWorking := true, ragSources := [] } :=
  ⟨by decide, rfl,
    retrieveContext_missing_results "q" "KB" 3 sendNullResults (by decide) rfl⟩

/-- C9: a listing request whose region parameter is missing (`none`) or the
empty string gets an HTTP 400 response with an error payload, and the remote
registry is not contacted. -/
theorem GET_missing_region (region : Option String)
    (send : String → Except String ListKnowledgeBasesResponse)
    (h : region = none ∨ region = some "") :
    GET region send =
      ({ status := 400, body := GETBody.errorBody "Region is required" }, false) := by
  rcases h with h | h <;> subst h <;> rfl

/-- Witness for C9 at the empty region string. -/
theorem GET_missing_region_witness :
    ((some "" : Option String) = none ∨ (some "" : Option String) = some "") ∧
      GET (some "") sendListOk =
        ({ status := 400, body := GETBody.errorBody "Region is required" }, false) :=
  ⟨Or.inr rfl, GET_missing_region (some "") sendListOk (Or.inr rfl)⟩

/-- C3: on a successful remote call returning a non-empty list of matches
that all contain text, the context is the blank-line join of the snippet
texts in remote order, and the source list has exactly as many entries, the
`i`-th built from the `i`-th match. -/
theorem retrieveContext_all_text (query kbId : String) (n : Nat)
    (send : RetrieveCommandInput → Except String RetrieveResponse)
    (rs : List RetrievalResult) (hkb : kbId ≠ "")
    (hsend : send (mkInput query kbId n) =
      Except.ok { retrievalResults := some rs })
    (_hne : rs ≠ []) (hall : ∀ r ∈ rs, hasText r = true) :
    (retrieveContext query kbId n send).1.context =
        String.intercalate "\n\n" (rs.map textOf) ∧
      (retrieveContext query kbId n send).1.ragSources.length = rs.length ∧
      (retrieveContext query kbId n send).1.ragSources =
        rs.enum.map fun p => mkRagSource p.1 p.2 := by
  rw [retrieveContext_ok_spec query kbId n send rs hkb hsend,
    List.filter_eq_self.mpr hall]
  exact ⟨rfl, by simp [List.enum_length], rfl⟩

/-- Witness for C3 at a concrete all-textual response. -/
theorem retrieveContext_all_text_witness :
    ("KB" ≠ "") ∧ ([resultA] ≠ ([] : List RetrievalResult)) ∧
      ((retrieveContext "q" "KB" 3 sendAllText).1.context =
          String.intercalate "\n\n" ([resultA].map textOf) ∧
        (retrieveContext "q" "KB" 3 sendAllText).1.ragSources.length =
          [resultA].length ∧
        (retrieveContext "q" "KB" 3 sendAllText).1.ragSources =
          [resultA].enum.map fun p => mkRagSource p.1 p.2) :=
  ⟨by decide, by decide,
    retrieveContext_all_text "q" "KB" 3 sendAllText [resultA] (by decide) rfl
      (by decide) (by decide)⟩

/-- C7: on any successful remote response, both outputs are built from the
matches that pass the text filter only: matches lacking text contribute
neither to the context string nor to the source list. -/
theorem retrieveContext_excludes_textless (query kbId : String) (n : Nat)
    (send : RetrieveCommandInput → Except String RetrieveResponse)
    (rs : List RetrievalResult) (hkb : kbId ≠ "")
    (hsend : send (mkInput query kbId n) =
      Except.ok { retrievalResults := some rs }) :
    (retrieveContext query kbId n send).1.context =
        String.intercalate "\n\n" ((rs.filter hasText).map textOf) ∧
      (retrieveContext query kbId n send).1.ragSources =
        (rs.filter hasText).enum.map fun p => mkRagSource p.1 p.2 := by
  rw [retrieveContext_ok_spec query kbId n send rs hkb hsend]
  exact ⟨rfl, rfl⟩

/-- Witness for C7 at a concrete mixed response: the content-less match is
dropped from both outputs. -/
theorem retrieveContext_excludes_textless_witness :
    ("KB" ≠ "") ∧
      ((retrieveContext "q" "KB" 3 sendMixed).1.context =
          String.intercalate "\n\n"
            (([resultA, resultNoText, resultNoLoc].filter hasText).map textOf) ∧
        (retrieveContext "q" "KB" 3 sendMixed).1.ragSources =
          ([resultA, resultNoText, resultNoLoc].filter hasText).enum.map
            fun p => mkRagSource p.1 p.2) :=
  ⟨by decide,
    retrieveContext_excludes_textless "q" "KB" 3 sendMixed
      [resultA, resultNoText, resultNoLoc] (by decide) rfl⟩

/-- C6: the concrete return-policy scenario: the two snippets are joined with
a blank line, the display names are `"policy returns"` and
`"policy refunds"` with scores `0.9` and `0.8`, and `isRagWorking = true`. -/
theorem retrieveContext_return_policy_scenario :
    (retrieveContext "What is your return policy?" "KB123" 3 sendReturnPolicy).1 =
      { context :=
          "Returns accepted within 30 days.\n\nRefunds issued to original payment method."
        isRagWorking := true
        ragSources :=
          [{ id := "chunk-0", fileName := "policy returns",
             snippet := "Returns accepted within 30 days.", score := 9/10 },
           { id := "chunk-1", fileName := "policy refunds",
             snippet := "Refunds issued to original payment method.", score := 4/5 }] } := by
  have hm1 : mkRagSource 0 rPolicyReturns =
      { id := "chunk-0", fileName := "policy returns",
        snippet := "Returns accepted within 30 days.", score := 9/10 } := by
    unfold mkRagSource
    rw [RAGSource.mk.injEq]
    refine ⟨rfl, rfl, rfl, ?_⟩
    show jsOrRat (some (9/10)) 0 = 9/10
    simp only [jsOrRat]
    rw [if_neg (show ¬((9 : ℚ)/10 = 0) by norm_num)]
  have hm2 : mkRagSource 1 rPolicyRefunds =
      { id := "chunk-1", fileName := "policy refunds",
        snippet := "Refunds issued to original payment method.", score := 4/5 } := by
    unfold mkRagSource
    rw [RAGSource.mk.injEq]
    refine ⟨rfl, rfl, rfl, ?_⟩
    show jsOrRat (some (4/5)) 0 = 4/5
    simp only [jsOrRat]
    rw [if_neg (show ¬((4 : ℚ)/5 = 0) by norm_num)]
  rw [retrieveContext_ok_fst "What is your return policy?" "KB123" 3
    sendReturnPolicy [rPolicyReturns, rPolicyRefunds] (by decide) rfl]
  rw [RetrieveOutcome.mk.injEq]
  refine ⟨rfl, rfl, ?_⟩
  show [mkRagSource 0 rPolicyReturns, mkRagSource 1 rPolicyRefunds] = _
  rw [hm1, hm2]

/-- C8: on a successful remote response, a filtered match whose source
locator yields no non-empty last path segment (absent or degenerate locator)
gets the positional placeholder display name `Source-<index>`; the embedding
is total, so no exception can be raised. -/
theorem retrieveContext_placeholder_source (query kbId : String) (n : Nat)
    (send : RetrieveCommandInput → Except String RetrieveResponse)
    (rs : List RetrievalResult) (i : Nat) (hkb : kbId ≠ "")
    (hsend : send (mkInput query kbId n) = Except.ok { retrievalResults := some rs })
    (hi : i < (rs.filter hasText).length)
    (hloc : lastSeg (uriOf ((rs.filter hasText).get ⟨i, hi⟩)) = "") :
    ∃ hlen : i < (retrieveContext query kbId n send).1.ragSources.length,
      ((retrieveContext query kbId n send).1.ragSources.get ⟨i, hlen⟩).fileName =
        "Source-" ++ Nat.repr i := by
  rw [retrieveContext_ok_fst query kbId n send rs hkb hsend]
  have hlen : i < (((rs.filter hasText).enum.map fun p => mkRagSource p.1 p.2)).length := by
    rw [List.length_map, List.enum_length]
    exact hi
  refine ⟨hlen, ?_⟩
  rw [List.get_eq_getElem, List.getElem_map, List.getElem_enum]
  exact mkRagSource_placeholder i _ hloc

/-- Witness for C8 at a concrete response whose second filtered match has no
location. -/
theorem retrieveContext_placeholder_source_witness :
    ("KB" ≠ "") ∧
      ∃ hlen : 1 < (retrieveContext "q" "KB" 3 sendMixed).1.ragSources.length,
        ((retrieveContext "q" "KB" 3 sendMixed).1.ragSources.get ⟨1, hlen⟩).fileName =
          "Source-" ++ Nat.repr 1 :=
  ⟨by decide, retrieveContext_placeholder_source "q" "KB" 3 sendMixed
    [resultA, resultNoText, resultNoLoc] 1 (by decide) rfl (by decide) (by decide)⟩

end CustomerSupportAgent
